import Mathlib

/-!
Shallow embedding of `src/zeppelin.py` (pyzeppelin): a single REST client
class `ZeppelinClient` wrapping the Zeppelin notebook HTTP API.

The network is modelled as an oracle `Server : HttpRequest → HttpResponse`.
Each Python method becomes a pure function that returns the (unchanged)
client, the list of HTTP requests it issued, and its result or raised
exception (`Except PyError`).

Python's `str.format` (used for `BASEURI_PATTERN` and the login URI) is
embedded by `pyFormat`: a one-pass scan of the template in which
substituted values are *not* re-scanned, a doubled brace is an escape,
and an unmatched brace or an unknown key is an error — matching
CPython's behaviour on the features this client uses.  The fixed
single-field templates `/notebook/...format(noteid=noteid)` are embedded
directly as string concatenation, which is exactly what `str.format`
computes on those literals (their field values are never re-scanned).
-/

/-- A JSON value, as produced by `response.json()`. -/
inductive JVal where
  | str : String → JVal
  | num : Int → JVal
  | bool : Bool → JVal
  | null : JVal
  | arr : List JVal → JVal
  | obj : List (String × JVal) → JVal

/-- An HTTP request as issued by `requests.Session.request(method, uri, data=data)`. -/
structure HttpRequest where
  method : String
  uri : String
  data : Option String

/-- An HTTP response as seen by the client: `r.ok`, `r.reason`, and the
top-level JSON object returned by `r.json()`. -/
structure HttpResponse where
  ok : Bool
  reason : String
  json : List (String × JVal)

/-- The remote Zeppelin server, as an oracle from requests to responses. -/
abbrev Server := HttpRequest → HttpResponse

/-- Python exceptions that the client can raise. -/
inductive PyError where
  | keyError : String → PyError
  | nameError : String → PyError
  | notImplementedError : PyError
  | exception : String → PyError
  | formatError : PyError
deriving DecidableEq

/-- Keyword-argument lookup used by `str.format`. -/
def lookupSub (subs : List (String × String)) (key : String) : Option String :=
  match subs with
  | [] => none
  | (k, v) :: rest => if k = key then some v else lookupSub rest key

/-- Scanner state for `pyFormat`: plain text, just after an opening brace,
just after a closing brace, or inside a replacement field's key. -/
inductive FmtState where
  | text
  | sawOpen
  | sawClose
  | key (acc : List Char)

/-- One-pass scan of a `str.format` template.  Ordinary characters are
copied; `\x7b` opens a replacement field (`\x7b\x7b` escapes a brace);
a lone `\x7d` is an error (`\x7d\x7d` escapes a brace); a field's key is
looked up in `subs` and its value spliced in without being re-scanned;
an unknown key or empty field is an error (`KeyError`/`IndexError`). -/
def pyFormatScan (subs : List (String × String)) : FmtState → List Char → Option (List Char)
  | .text, [] => some []
  | .sawOpen, [] => none
  | .sawClose, [] => none
  | .key _, [] => none
  | .text, c :: rest =>
    if c = '\x7b' then pyFormatScan subs .sawOpen rest
    else if c = '\x7d' then pyFormatScan subs .sawClose rest
    else (pyFormatScan subs .text rest).map (fun l => c :: l)
  | .sawOpen, c :: rest =>
    if c = '\x7b' then (pyFormatScan subs .text rest).map (fun l => '\x7b' :: l)
    else if c = '\x7d' then none
    else pyFormatScan subs (.key [c]) rest
  | .sawClose, c :: rest =>
    if c = '\x7d' then (pyFormatScan subs .text rest).map (fun l => '\x7d' :: l)
    else none
  | .key acc, c :: rest =>
    if c = '\x7d' then
      match lookupSub subs (String.mk acc) with
      | some v => (pyFormatScan subs .text rest).map (fun l => v.data ++ l)
      | none => none
    else pyFormatScan subs (.key (acc ++ [c])) rest

/-- Python `template.format(**subs)` on the templates this client uses. -/
def pyFormat (subs : List (String × String)) (template : String) : Option String :=
  (pyFormatScan subs .text template.data).map String.mk

/-- Source line 18: `BASEURI_PATTERN = "http://{host}:{port}/api"` (braces escaped). -/
def BASEURI_PATTERN : String := "http://\x7bhost\x7d:\x7bport\x7d/api"

/-- The client's own state: `self.baseuri` and `self.session` (the session is
opaque to this model; `0` stands for the fresh `requests.Session()` made in
`__init__`). -/
structure ZeppelinClient where
  baseuri : String
  session : Nat
deriving DecidableEq

/-- Result of running one client method: the client afterwards (Python methods
never reassign `self.baseuri`/`self.session`, which the theorems below make
explicit), the HTTP requests issued, and the returned value or raised error. -/
abbrev OpResult (α : Type) := ZeppelinClient × List HttpRequest × Except PyError α

/-- Python `fields[key]` on the dict returned by `r.json()`, split into the
pure lookup (`lookupField`)... this is the lookup itself. -/
def lookupField (fields : List (String × JVal)) (key : String) : Option JVal :=
  match fields with
  | [] => none
  | (k, v) :: rest => if k = key then some v else lookupField rest key

/-- Python `r.json()[key]`: the value at `key`, or a raised `KeyError`. -/
def jsonGetItem (fields : List (String × JVal)) (key : String) : Except PyError JVal :=
  match lookupField fields key with
  | some v => .ok v
  | none => .error (.keyError key)

/-- Source lines 48–54, `_talk_to_host`: build the request, send it over the
session, and hand back the raw response — the commented-out `r.ok` check is
absent, so no status validation happens here. -/
def ZeppelinClient.talk_to_host (c : ZeppelinClient) (server : Server)
    (method : String) (uri : String) (data : Option String) :
    HttpRequest × HttpResponse :=
  let req : HttpRequest := { method := method, uri := uri, data := data }
  (req, server req)

/-- Source lines 40–45, `_login`: format the login URI (note the template is
appended to `self.baseuri` *before* `.format`, so a brace inside the base URI
is re-interpreted), POST it, and raise unless `r.ok`. -/
def ZeppelinClient.login (c : ZeppelinClient) (server : Server)
    (username password : String) : List HttpRequest × Except PyError Unit :=
  match pyFormat [("username", username), ("password", password)]
      (c.baseuri ++ "/login?userName=\x7busername\x7d&password=\x7bpassword\x7d") with
  | none => ([], .error .formatError)
  | some uri =>
    let req : HttpRequest := { method := "POST", uri := uri, data := none }
    let r := server req
    if r.ok then ([req], .ok ())
    else ([req], .error (.exception (r.reason ++ ": cannot login to zeppelin : " ++ uri)))

/-- Source lines 25–37, `__init__`: make a session, format the base URI from
the pattern, and log in exactly when `auth` is given. -/
def ZeppelinClient.init (server : Server) (host : String) (port : Nat)
    (auth : Option (String × String)) (baseuri_pattern : String) :
    List HttpRequest × Except PyError ZeppelinClient :=
  match pyFormat [("host", host), ("port", Nat.repr port)] baseuri_pattern with
  | none => ([], .error .formatError)
  | some baseuri =>
    let c : ZeppelinClient := { baseuri := baseuri, session := 0 }
    match auth with
    | none => ([], .ok c)
    | some (username, password) =>
      let (tr, res) := c.login server username password
      (tr, res.map (fun _ => c))

/-- Source lines 60–68, `list_notebooks`: GET `/notebook`, return `json()['body']`. -/
def ZeppelinClient.list_notebooks (c : ZeppelinClient) (server : Server) : OpResult JVal :=
  let uri := c.baseuri ++ "/notebook"
  let (req, r) := c.talk_to_host server "GET" uri none
  (c, [req], jsonGetItem r.json "body")

/-- Source lines 70–85, `get_status_of_all_paragraphs`: GET `/notebook/job/[noteId]`,
return `json()['body']`. -/
def ZeppelinClient.get_status_of_all_paragraphs (c : ZeppelinClient) (server : Server)
    (noteid : String) : OpResult JVal :=
  let uri := c.baseuri ++ "/notebook/job/" ++ noteid
  let (req, r) := c.talk_to_host server "GET" uri none
  (c, [req], jsonGetItem r.json "body")

/-- Source lines 87–96, `get_note_info`: GET `/notebook/[noteId]`, return
`json()['body']`. -/
def ZeppelinClient.get_note_info (c : ZeppelinClient) (server : Server)
    (noteid : String) : OpResult JVal :=
  let uri := c.baseuri ++ "/notebook/" ++ noteid
  let (req, r) := c.talk_to_host server "GET" uri none
  (c, [req], jsonGetItem r.json "body")

/-- Source lines 98–105, `delete_note`: DELETE `/notebook/[noteId]`, return `None`. -/
def ZeppelinClient.delete_note (c : ZeppelinClient) (server : Server)
    (noteid : String) : OpResult Unit :=
  let uri := c.baseuri ++ "/notebook/" ++ noteid
  let (req, _) := c.talk_to_host server "DELETE" uri none
  (c, [req], .ok ())

/-- Source line 119: `data = '{"name":"%s"}' % name if name else None`
(`name` falsy — `None` or empty — yields no payload). -/
def cloneData (name : Option String) : Option String :=
  match name with
  | none => none
  | some n => if n = "" then none else some ("\x7b\"name\":\"" ++ n ++ "\"\x7d")

/-- Source lines 108–121, `clone_note`: despite the docstring's POST, the code
sends DELETE to `/notebook/[noteId]` with the optional name payload, and
returns `json()['body']`. -/
def ZeppelinClient.clone_note (c : ZeppelinClient) (server : Server)
    (noteid : String) (name : Option String) : OpResult JVal :=
  let uri := c.baseuri ++ "/notebook/" ++ noteid
  let (req, r) := c.talk_to_host server "DELETE" uri (cloneData name)
  (c, [req], jsonGetItem r.json "body")

/-- Source lines 123–130, `export_note`: `raise NotImplementedError`. -/
def ZeppelinClient.export_note (c : ZeppelinClient) (server : Server)
    (noteid : String) : OpResult Unit :=
  (c, [], .error .notImplementedError)

/-- Source lines 132–138, `import_note`: `raise NotImplementedError`. -/
def ZeppelinClient.import_note (c : ZeppelinClient) (server : Server) : OpResult Unit :=
  (c, [], .error .notImplementedError)

/-- Source lines 140–149, `run_all_paragraph`: POST `/notebook/job/[noteId]`,
response dropped, return `None`. -/
def ZeppelinClient.run_all_paragraph (c : ZeppelinClient) (server : Server)
    (noteid : String) : OpResult Unit :=
  let uri := c.baseuri ++ "/notebook/job/" ++ noteid
  let (req, _) := c.talk_to_host server "POST" uri none
  (c, [req], .ok ())

/-- Source lines 151–159, `stop_all_paragraph`: DELETE `/notebook/job/[noteId]`,
return `None`. -/
def ZeppelinClient.stop_all_paragraph (c : ZeppelinClient) (server : Server)
    (noteid : String) : OpResult Unit :=
  let uri := c.baseuri ++ "/notebook/job/" ++ noteid
  let (req, _) := c.talk_to_host server "DELETE" uri none
  (c, [req], .ok ())

/-- Source lines 161–168, `clear_all_pargraph_results` (sic): the method takes
no `noteid` parameter yet its body reads `noteid`, which is bound nowhere in
the module, so the URI construction raises `NameError` before any request. -/
def ZeppelinClient.clear_all_pargraph_results (c : ZeppelinClient) (server : Server) :
    OpResult Unit :=
  (c, [], .error (.nameError "noteid"))

/-- Source lines 171–172, `create_paragraph`: `raise NotImplementedError`. -/
def ZeppelinClient.create_paragraph (c : ZeppelinClient) (server : Server)
    (noteid : String) : OpResult Unit :=
  (c, [], .error .notImplementedError)

/-- Source lines 174–175, `get_paragraph_info`: `raise NotImplementedError`. -/
def ZeppelinClient.get_paragraph_info (c : ZeppelinClient) (server : Server)
    (noteid paragraphid : String) : OpResult Unit :=
  (c, [], .error .notImplementedError)

/-- Source lines 177–189, `get_paragraph_status`: GET
`/notebook/job/[noteId]/[paragraphId]`, return `json()['body']`. -/
def ZeppelinClient.get_paragraph_status (c : ZeppelinClient) (server : Server)
    (noteid paragraphid : String) : OpResult JVal :=
  let uri := c.baseuri ++ "/notebook/job/" ++ noteid ++ "/" ++ paragraphid
  let (req, r) := c.talk_to_host server "GET" uri none
  (c, [req], jsonGetItem r.json "body")

/-- Source lines 191–192, `update_paragraph_config`: `raise NotImplementedError`. -/
def ZeppelinClient.update_paragraph_config (c : ZeppelinClient) (server : Server)
    (noteid paragraphid : String) : OpResult Unit :=
  (c, [], .error .notImplementedError)

/-- Source lines 194–195, `delete_paragraph`: `raise NotImplementedError`. -/
def ZeppelinClient.delete_paragraph (c : ZeppelinClient) (server : Server)
    (noteid paragraphid : String) : OpResult Unit :=
  (c, [], .error .notImplementedError)

/-- Source lines 197–209, `run_paragraph_asynchronously`: POST
`/notebook/job/[noteId]/[paragraphId]` with the payload as request body,
return `json()['body']`. -/
def ZeppelinClient.run_paragraph_asynchronously (c : ZeppelinClient) (server : Server)
    (noteid paragraphid : String) (payload : Option String) : OpResult JVal :=
  let uri := c.baseuri ++ "/notebook/job/" ++ noteid ++ "/" ++ paragraphid
  let (req, r) := c.talk_to_host server "POST" uri payload
  (c, [req], jsonGetItem r.json "body")

/-- Source lines 211–222, `run_paragraph_synchronously`: POST
`/notebook/run/[noteId]/[paragraphId]` with the payload as request body,
return `json()['body']`. -/
def ZeppelinClient.run_paragraph_synchronously (c : ZeppelinClient) (server : Server)
    (noteid paragraphid : String) (payload : Option String) : OpResult JVal :=
  let uri := c.baseuri ++ "/notebook/run/" ++ noteid ++ "/" ++ paragraphid
  let (req, r) := c.talk_to_host server "POST" uri payload
  (c, [req], jsonGetItem r.json "body")

/-- Source lines 224–232, `stop_paragraph`: the `payload` argument is required
but never used; DELETE `/notebook/job/[noteId]/[paragraphId]` with no body,
return `None`. -/
def ZeppelinClient.stop_paragraph {α : Type} (c : ZeppelinClient) (server : Server)
    (noteid paragraphid : String) (payload : α) : OpResult Unit :=
  let uri := c.baseuri ++ "/notebook/job/" ++ noteid ++ "/" ++ paragraphid
  let (req, _) := c.talk_to_host server "DELETE" uri none
  (c, [req], .ok ())

/-- A character that `str.format` copies verbatim: neither brace. -/
def braceFree (c : Char) : Bool := c != '\x7b' && c != '\x7d'

/-- A string `str.format` treats as plain text when it appears in a template. -/
def hasNoBrace (s : String) : Bool := s.data.all braceFree

/-- Observation: the verb and path of each request in a trace. -/
def verbPath (tr : List HttpRequest) : List (String × String) :=
  tr.map (fun r => (r.method, r.uri))

/-- The login URI the spec documents: `\x7bbaseuri\x7d/login` with the
credentials as query parameters, under the default base-URI template. -/
def loginUri (host : String) (port : Nat) (username password : String) : String :=
  "http://" ++ host ++ ":" ++ Nat.repr port ++ "/api/login?userName="
    ++ username ++ "&password=" ++ password

/-- The single login request construction-with-credentials should issue. -/
def loginReq (host : String) (port : Nat) (username password : String) : HttpRequest :=
  { method := "POST", uri := loginUri host port username password, data := none }

/-- A concrete client for witnesses. -/
def cl0 : ZeppelinClient := { baseuri := "http://localhost:6080/api", session := 0 }

/-- A server that always answers 200 with a JSON object lacking `body`. -/
def okServer : Server := fun _ =>
  { ok := true, reason := "OK", json := [("status", JVal.str "OK")] }

/-- A server that always rejects with 403. -/
def denyServer : Server := fun _ =>
  { ok := false, reason := "Forbidden", json := [] }

/-- The response body from the spec's `list_notebooks` example. -/
def noteBody : JVal :=
  JVal.arr [JVal.obj [("id", JVal.str "2A94M5J1Z"), ("name", JVal.str "note1")]]

/-- A server that always answers the spec's example note-list response. -/
def noteListServer : Server := fun _ =>
  { ok := true, reason := "OK", json := [("status", JVal.str "OK"), ("body", noteBody)] }

/-- Shorthand for building an `HttpRequest`. -/
def mkReq (method uri : String) (data : Option String) : HttpRequest :=
  { method := method, uri := uri, data := data }

theorem strAppend_assoc (a b c : String) : (a ++ b) ++ c = a ++ (b ++ c) := by
  apply String.ext
  simp [List.append_assoc]

theorem pyFormatScan_append (subs : List (String × String)) (l rest : List Char)
    (h : l.all braceFree = true) :
    pyFormatScan subs .text (l ++ rest)
      = (pyFormatScan subs .text rest).map (fun t => l ++ t) := by
  induction l with
  | nil =>
    cases h' : pyFormatScan subs .text rest <;> simp [h']
  | cons c l ih =>
    rw [List.all_cons, Bool.and_eq_true] at h
    obtain ⟨hc, hl⟩ := h
    rw [braceFree, Bool.and_eq_true, bne_iff_ne, bne_iff_ne] at hc
    rw [List.cons_append, pyFormatScan, if_neg hc.1, if_neg hc.2, ih hl]
    cases h' : pyFormatScan subs .text rest <;> simp [h']

theorem digitChar_braceFree (n : Nat) : braceFree (Nat.digitChar n) = true := by
  rcases n with _|_|_|_|_|_|_|_|_|_|_|_|_|_|_|_|m
  all_goals rfl

theorem toDigitsCore_braceFree (b fuel : Nat) : ∀ (n : Nat) (ds : List Char),
    ds.all braceFree = true → (Nat.toDigitsCore b fuel n ds).all braceFree = true := by
  induction fuel with
  | zero => intro n ds h; simpa [Nat.toDigitsCore] using h
  | succ fuel ih =>
    intro n ds h
    by_cases hz : n / b = 0
    · simp [Nat.toDigitsCore, hz, digitChar_braceFree, h]
    · simp only [Nat.toDigitsCore, if_neg hz]
      exact ih _ _ (by simp [digitChar_braceFree, h])

theorem repr_hasNoBrace (n : Nat) : hasNoBrace (Nat.repr n) = true :=
  toDigitsCore_braceFree 10 (n + 1) n [] rfl

theorem hasNoBrace_append (a b : String) :
    hasNoBrace (a ++ b) = (hasNoBrace a && hasNoBrace b) := by
  simp [hasNoBrace]

theorem login_uri_format (baseuri u p : String) (h : hasNoBrace baseuri = true) :
    pyFormat [("username", u), ("password", p)]
      (baseuri ++ "/login?userName=\x7busername\x7d&password=\x7bpassword\x7d")
    = some (baseuri ++ "/login?userName=" ++ u ++ "&password=" ++ p) := by
  unfold pyFormat
  rw [String.data_append, pyFormatScan_append _ _ _ h]
  rw [show pyFormatScan [("username", u), ("password", p)] .text
      ("/login?userName=\x7busername\x7d&password=\x7bpassword\x7d").data
      = some ("/login?userName=".data ++ (u.data ++ ("&password=".data ++ (p.data ++ []))))
    from rfl]
  simp only [Option.map_some']
  apply congrArg
  apply String.ext
  simp [List.append_assoc]

/-- C1: every implemented public operation (list all notes, list paragraph
statuses for a note, get note info, delete note, clone note, run all
paragraphs, stop all paragraphs, get single paragraph status, run paragraph
asynchronously, run paragraph synchronously, stop paragraph) issues exactly
one HTTP request, with the verb and path the operation table documents —
including clone note's annotated bug of sending DELETE to
`/notebook/[noteId]`. -/
theorem C1_operation_requests {α : Type} (c : ZeppelinClient) (server : Server)
    (noteid paragraphid : String) (name payload : Option String) (pl : α) :
    verbPath (c.list_notebooks server).2.1 = [("GET", c.baseuri ++ "/notebook")]
  ∧ verbPath (c.get_status_of_all_paragraphs server noteid).2.1
      = [("GET", c.baseuri ++ "/notebook/job/" ++ noteid)]
  ∧ verbPath (c.get_note_info server noteid).2.1
      = [("GET", c.baseuri ++ "/notebook/" ++ noteid)]
  ∧ verbPath (c.delete_note server noteid).2.1
      = [("DELETE", c.baseuri ++ "/notebook/" ++ noteid)]
  ∧ verbPath (c.clone_note server noteid name).2.1
      = [("DELETE", c.baseuri ++ "/notebook/" ++ noteid)]
  ∧ verbPath (c.run_all_paragraph server noteid).2.1
      = [("POST", c.baseuri ++ "/notebook/job/" ++ noteid)]
  ∧ verbPath (c.stop_all_paragraph server noteid).2.1
      = [("DELETE", c.baseuri ++ "/notebook/job/" ++ noteid)]
  ∧ verbPath (c.get_paragraph_status server noteid paragraphid).2.1
      = [("GET", c.baseuri ++ "/notebook/job/" ++ noteid ++ "/" ++ paragraphid)]
  ∧ verbPath (c.run_paragraph_asynchronously server noteid paragraphid payload).2.1
      = [("POST", c.baseuri ++ "/notebook/job/" ++ noteid ++ "/" ++ paragraphid)]
  ∧ verbPath (c.run_paragraph_synchronously server noteid paragraphid payload).2.1
      = [("POST", c.baseuri ++ "/notebook/run/" ++ noteid ++ "/" ++ paragraphid)]
  ∧ verbPath (c.stop_paragraph server noteid paragraphid pl).2.1
      = [("DELETE", c.baseuri ++ "/notebook/job/" ++ noteid ++ "/" ++ paragraphid)] :=
  ⟨rfl, rfl, rfl, rfl, rfl, rfl, rfl, rfl, rfl, rfl, rfl⟩

/-- C4: `clear_all_pargraph_results` reads the unbound identifier `noteid`,
so every call raises a `NameError` during URI construction, before any HTTP
request is issued — the documented PUT to `/notebook/job/[noteId]/clear` can
only happen if that identifier resolved, which it never does. -/
theorem C4_clear_always_name_error (c : ZeppelinClient) (server : Server) :
    c.clear_all_pargraph_results server = (c, [], .error (.nameError "noteid")) :=
  rfl

/-- C5: `_talk_to_host` issues the given method/URI/data over the session and
returns the server's raw response object unmodified, with no status-code
validation and no exception on a non-success response. -/
theorem C5_talk_to_host_raw (c : ZeppelinClient) (server : Server)
    (method uri : String) (data : Option String) :
    c.talk_to_host server method uri data
      = ({ method := method, uri := uri, data := data },
         server { method := method, uri := uri, data := data }) :=
  rfl

/-- C6: every unimplemented operation (export note, import note, create
paragraph, get paragraph info, update paragraph config, delete paragraph)
fails immediately with `NotImplementedError` and issues no HTTP request. -/
theorem C6_unimplemented (c : ZeppelinClient) (server : Server)
    (noteid paragraphid : String) :
    c.export_note server noteid = (c, [], .error .notImplementedError)
  ∧ c.import_note server = (c, [], .error .notImplementedError)
  ∧ c.create_paragraph server noteid = (c, [], .error .notImplementedError)
  ∧ c.get_paragraph_info server noteid paragraphid = (c, [], .error .notImplementedError)
  ∧ c.update_paragraph_config server noteid paragraphid = (c, [], .error .notImplementedError)
  ∧ c.delete_paragraph server noteid paragraphid = (c, [], .error .notImplementedError) :=
  ⟨rfl, rfl, rfl, rfl, rfl, rfl⟩

/-- C9: `stop_paragraph` requires a payload argument it never uses: the one
DELETE request to `/notebook/job/[noteId]/[paragraphId]` carries no body, the
whole result is the same for every payload value (of any type), and the
operation returns `None`. -/
theorem C9_stop_paragraph_payload_unused {α β : Type} (c : ZeppelinClient)
    (server : Server) (noteid paragraphid : String) (payload : α) (payload2 : β) :
    c.stop_paragraph server noteid paragraphid payload
      = (c, [{ method := "DELETE",
               uri := c.baseuri ++ "/notebook/job/" ++ noteid ++ "/" ++ paragraphid,
               data := none }], .ok ())
  ∧ c.stop_paragraph server noteid paragraphid payload
      = c.stop_paragraph server noteid paragraphid payload2 :=
  ⟨rfl, rfl⟩

/-- C10: no public operation mutates the client: after any call the returned
client — its `baseuri` string and its `session` — is exactly the one the call
was made on; only construction sets those fields. -/
theorem C10_client_state_unchanged {α : Type} (c : ZeppelinClient) (server : Server)
    (noteid paragraphid : String) (name payload : Option String) (pl : α) :
    (c.list_notebooks server).1 = c
  ∧ (c.get_status_of_all_paragraphs server noteid).1 = c
  ∧ (c.get_note_info server noteid).1 = c
  ∧ (c.delete_note server noteid).1 = c
  ∧ (c.clone_note server noteid name).1 = c
  ∧ (c.export_note server noteid).1 = c
  ∧ (c.import_note server).1 = c
  ∧ (c.run_all_paragraph server noteid).1 = c
  ∧ (c.stop_all_paragraph server noteid).1 = c
  ∧ (c.clear_all_pargraph_results server).1 = c
  ∧ (c.create_paragraph server noteid).1 = c
  ∧ (c.get_paragraph_info server noteid paragraphid).1 = c
  ∧ (c.get_paragraph_status server noteid paragraphid).1 = c
  ∧ (c.update_paragraph_config server noteid paragraphid).1 = c
  ∧ (c.delete_paragraph server noteid paragraphid).1 = c
  ∧ (c.run_paragraph_asynchronously server noteid paragraphid payload).1 = c
  ∧ (c.run_paragraph_synchronously server noteid paragraphid payload).1 = c
  ∧ (c.stop_paragraph server noteid paragraphid pl).1 = c :=
  ⟨rfl, rfl, rfl, rfl, rfl, rfl, rfl, rfl, rfl, rfl, rfl, rfl, rfl, rfl, rfl, rfl, rfl, rfl⟩


/-- C2: each body-extracting operation (list all notes, list paragraph
statuses, get note info, clone note, get single paragraph status, run
paragraph asynchronously, run paragraph synchronously) returns exactly the
value at the response's top-level `body` field when it is present, and fails
with a `KeyError` on `body` when it is absent. -/
theorem C2_body_extraction (c : ZeppelinClient) (server : Server)
    (noteid paragraphid : String) (name payload : Option String) (v : JVal) :
    (lookupField (server (mkReq "GET" (c.baseuri ++ "/notebook") none)).json "body"
        = some v →
      (c.list_notebooks server).2.2 = .ok v)
  ∧ (lookupField (server (mkReq "GET" (c.baseuri ++ "/notebook") none)).json "body"
        = none →
      (c.list_notebooks server).2.2 = .error (.keyError "body"))
  ∧ (lookupField (server (mkReq "GET" (c.baseuri ++ "/notebook/job/" ++ noteid) none)).json
        "body" = some v →
      (c.get_status_of_all_paragraphs server noteid).2.2 = .ok v)
  ∧ (lookupField (server (mkReq "GET" (c.baseuri ++ "/notebook/job/" ++ noteid) none)).json
        "body" = none →
      (c.get_status_of_all_paragraphs server noteid).2.2 = .error (.keyError "body"))
  ∧ (lookupField (server (mkReq "GET" (c.baseuri ++ "/notebook/" ++ noteid) none)).json
        "body" = some v →
      (c.get_note_info server noteid).2.2 = .ok v)
  ∧ (lookupField (server (mkReq "GET" (c.baseuri ++ "/notebook/" ++ noteid) none)).json
        "body" = none →
      (c.get_note_info server noteid).2.2 = .error (.keyError "body"))
  ∧ (lookupField (server (mkReq "DELETE" (c.baseuri ++ "/notebook/" ++ noteid)
        (cloneData name))).json "body" = some v →
      (c.clone_note server noteid name).2.2 = .ok v)
  ∧ (lookupField (server (mkReq "DELETE" (c.baseuri ++ "/notebook/" ++ noteid)
        (cloneData name))).json "body" = none →
      (c.clone_note server noteid name).2.2 = .error (.keyError "body"))
  ∧ (lookupField (server (mkReq "GET"
        (c.baseuri ++ "/notebook/job/" ++ noteid ++ "/" ++ paragraphid) none)).json
        "body" = some v →
      (c.get_paragraph_status server noteid paragraphid).2.2 = .ok v)
  ∧ (lookupField (server (mkReq "GET"
        (c.baseuri ++ "/notebook/job/" ++ noteid ++ "/" ++ paragraphid) none)).json
        "body" = none →
      (c.get_paragraph_status server noteid paragraphid).2.2 = .error (.keyError "body"))
  ∧ (lookupField (server (mkReq "POST"
        (c.baseuri ++ "/notebook/job/" ++ noteid ++ "/" ++ paragraphid) payload)).json
        "body" = some v →
      (c.run_paragraph_asynchronously server noteid paragraphid payload).2.2 = .ok v)
  ∧ (lookupField (server (mkReq "POST"
        (c.baseuri ++ "/notebook/job/" ++ noteid ++ "/" ++ paragraphid) payload)).json
        "body" = none →
      (c.run_paragraph_asynchronously server noteid paragraphid payload).2.2
        = .error (.keyError "body"))
  ∧ (lookupField (server (mkReq "POST"
        (c.baseuri ++ "/notebook/run/" ++ noteid ++ "/" ++ paragraphid) payload)).json
        "body" = some v →
      (c.run_paragraph_synchronously server noteid paragraphid payload).2.2 = .ok v)
  ∧ (lookupField (server (mkReq "POST"
        (c.baseuri ++ "/notebook/run/" ++ noteid ++ "/" ++ paragraphid) payload)).json
        "body" = none →
      (c.run_paragraph_synchronously server noteid paragraphid payload).2.2
        = .error (.keyError "body")) := by
  refine ⟨?_, ?_, ?_, ?_, ?_, ?_, ?_, ?_, ?_, ?_, ?_, ?_, ?_, ?_⟩ <;>
    · intro h
      simp_all [ZeppelinClient.list_notebooks, ZeppelinClient.get_status_of_all_paragraphs,
        ZeppelinClient.get_note_info, ZeppelinClient.clone_note,
        ZeppelinClient.get_paragraph_status, ZeppelinClient.run_paragraph_asynchronously,
        ZeppelinClient.run_paragraph_synchronously,
        ZeppelinClient.talk_to_host, mkReq, jsonGetItem]

/-- C2 witness: against the spec's example response, `list_notebooks` and
`get_paragraph_status` return the example body; against a 200 response
without `body`, the lookup fails with `KeyError('body')`. -/
theorem C2_body_extraction_witness :
    (cl0.list_notebooks noteListServer).2.2 = .ok noteBody
  ∧ (cl0.get_paragraph_status noteListServer "n1" "p1").2.2 = .ok noteBody
  ∧ (cl0.list_notebooks okServer).2.2 = .error (.keyError "body") :=
  ⟨(C2_body_extraction cl0 noteListServer "n1" "p1" none none noteBody).1 rfl,
   (C2_body_extraction cl0 noteListServer "n1" "p1" none none noteBody).2.2.2.2.2.2.2.2.1 rfl,
   (C2_body_extraction cl0 okServer "n1" "p1" none none noteBody).2.1 rfl⟩

theorem init_fmtfail_eq (server : Server) (host : String) (port : Nat)
    (auth : Option (String × String)) (pattern : String)
    (hb : pyFormat [("host", host), ("port", Nat.repr port)] pattern = none) :
    ZeppelinClient.init server host port auth pattern = ([], .error .formatError) := by
  unfold ZeppelinClient.init
  rw [hb]

theorem init_noauth_eq (server : Server) (host : String) (port : Nat)
    (pattern baseuri : String)
    (hb : pyFormat [("host", host), ("port", Nat.repr port)] pattern = some baseuri) :
    ZeppelinClient.init server host port none pattern
      = ([], .ok { baseuri := baseuri, session := 0 }) := by
  unfold ZeppelinClient.init
  rw [hb]

theorem init_auth_eq (server : Server) (host : String) (port : Nat) (u p : String)
    (pattern baseuri : String)
    (hb : pyFormat [("host", host), ("port", Nat.repr port)] pattern = some baseuri) :
    ZeppelinClient.init server host port (some (u, p)) pattern
      = ((({ baseuri := baseuri, session := 0 } : ZeppelinClient).login server u p).1,
         (({ baseuri := baseuri, session := 0 } : ZeppelinClient).login server u p).2.map
           (fun _ => { baseuri := baseuri, session := 0 })) := by
  unfold ZeppelinClient.init
  rw [hb]

theorem login_cases (c : ZeppelinClient) (server : Server) (u p : String) (uri : String)
    (hfmt : pyFormat [("username", u), ("password", p)]
        (c.baseuri ++ "/login?userName=\x7busername\x7d&password=\x7bpassword\x7d")
      = some uri) :
    c.login server u p
      = ([mkReq "POST" uri none],
         if (server (mkReq "POST" uri none)).ok then .ok ()
         else .error (.exception ((server (mkReq "POST" uri none)).reason
             ++ ": cannot login to zeppelin : " ++ uri))) := by
  unfold ZeppelinClient.login
  rw [hfmt]
  dsimp only
  split <;> simp_all [mkReq]

/-- C8: constructing the client without credentials (`auth = None`) issues no
login request and no HTTP request of any kind. -/
theorem C8_no_requests_without_auth (server : Server) (host : String) (port : Nat)
    (baseuri_pattern : String) :
    (ZeppelinClient.init server host port none baseuri_pattern).1 = [] := by
  cases hb : pyFormat [("host", host), ("port", Nat.repr port)] baseuri_pattern with
  | none => rw [init_fmtfail_eq server host port none baseuri_pattern hb]
  | some baseuri => rw [init_noauth_eq server host port baseuri_pattern baseuri hb]

/-- C7: whatever the `auth` argument, whenever construction under the default
base-URI template succeeds, the client's base URI is the template with
`\x7bhost\x7d` and `\x7bport\x7d` each substituted exactly once:
`http://` + host + `:` + port + `/api`. -/
theorem C7_baseuri (host : String) (port : Nat) (auth : Option (String × String))
    (server : Server) (cl : ZeppelinClient)
    (h : (ZeppelinClient.init server host port auth BASEURI_PATTERN).2 = .ok cl) :
    cl.baseuri = "http://" ++ host ++ ":" ++ Nat.repr port ++ "/api" := by
  have hb : pyFormat [("host", host), ("port", Nat.repr port)] BASEURI_PATTERN
      = some ("http://" ++ host ++ ":" ++ Nat.repr port ++ "/api") := by
    simp only [strAppend_assoc]
    rfl
  rcases auth with _ | ⟨u, p⟩
  · rw [init_noauth_eq server host port BASEURI_PATTERN _ hb] at h
    simp only [Except.ok.injEq] at h
    rw [← h]
  · rw [init_auth_eq server host port u p BASEURI_PATTERN _ hb] at h
    dsimp only at h
    rcases hres : ((ZeppelinClient.mk ("http://" ++ host ++ ":" ++ Nat.repr port ++ "/api") 0).login server u p).2 with e | val
    · rw [hres] at h
      simp [Except.map] at h
    · rw [hres] at h
      simp only [Except.map, Except.ok.injEq] at h
      rw [← h]

/-- C7 witness: constructing without credentials against `localhost:6080`
succeeds and yields base URI `http://localhost:6080/api`. -/
theorem C7_baseuri_witness :
    (ZeppelinClient.mk "http://localhost:6080/api" 0).baseuri
      = "http://" ++ "localhost" ++ ":" ++ Nat.repr 6080 ++ "/api" :=
  C7_baseuri "localhost" 6080 none okServer (ZeppelinClient.mk "http://localhost:6080/api" 0) rfl

/-- C3 counterexample: the claim quantifies over every host, but for the host
string `\x7boops\x7d` construction with credentials issues zero login requests
— `str.format` re-interprets the brace inside the base URI and raises before
any request — contradicting "issues exactly one login request". -/
theorem C3_counterexample :
    (ZeppelinClient.init okServer "\x7boops\x7d" 6080 (some ("admin", "pw")) BASEURI_PATTERN).1
      = []
  ∧ (ZeppelinClient.init okServer "\x7boops\x7d" 6080 (some ("admin", "pw")) BASEURI_PATTERN).2
      = .error .formatError :=
  ⟨rfl, rfl⟩

/-- C3 (amended to hosts without brace characters): construction with
credentials issues exactly one request — a POST to `\x7bbaseuri\x7d/login`
whose `userName` and `password` query parameters are the given credentials —
and if that response is non-2xx, construction fails with an error message
containing the HTTP reason phrase and the attempted URI, with no retry. -/
theorem C3_login_request (host : String) (port : Nat) (username password : String)
    (server : Server) (hhost : hasNoBrace host = true) :
    (ZeppelinClient.init server host port (some (username, password)) BASEURI_PATTERN).1
      = [loginReq host port username password]
  ∧ ((server (loginReq host port username password)).ok = false →
      (ZeppelinClient.init server host port (some (username, password)) BASEURI_PATTERN).2
        = .error (.exception ((server (loginReq host port username password)).reason
            ++ ": cannot login to zeppelin : " ++ loginUri host port username password))) := by
  have hb : pyFormat [("host", host), ("port", Nat.repr port)] BASEURI_PATTERN
      = some ("http://" ++ host ++ ":" ++ Nat.repr port ++ "/api") := by
    simp only [strAppend_assoc]
    rfl
  have hnb : hasNoBrace ("http://" ++ host ++ ":" ++ Nat.repr port ++ "/api") = true := by
    simp [hasNoBrace_append, hhost, repr_hasNoBrace,
      show hasNoBrace "http://" = true from rfl, show hasNoBrace ":" = true from rfl,
      show hasNoBrace "/api" = true from rfl]
  have huri : "http://" ++ host ++ ":" ++ Nat.repr port ++ "/api" ++ "/login?userName="
      ++ username ++ "&password=" ++ password = loginUri host port username password := by
    unfold loginUri
    simp only [strAppend_assoc]
    rfl
  have hfmt := login_uri_format ("http://" ++ host ++ ":" ++ Nat.repr port ++ "/api")
    username password hnb
  rw [huri] at hfmt
  rw [init_auth_eq server host port username password BASEURI_PATTERN _ hb]
  rw [login_cases (ZeppelinClient.mk ("http://" ++ host ++ ":" ++ Nat.repr port ++ "/api") 0)
    server username password (loginUri host port username password) hfmt]
  constructor
  · rfl
  · intro hok
    simp only [loginReq, mkReq] at hok ⊢
    rw [hok]
    simp [Except.map]

/-- C3 witness: for `localhost:8080` with credentials `joe`/`pw` against a
server that always answers 403 Forbidden, construction issues exactly the one
documented login POST and fails with the reason phrase and URI in the
message. -/
theorem C3_login_request_witness :
    (ZeppelinClient.init denyServer "localhost" 8080 (some ("joe", "pw")) BASEURI_PATTERN).1
      = [loginReq "localhost" 8080 "joe" "pw"]
  ∧ (ZeppelinClient.init denyServer "localhost" 8080 (some ("joe", "pw")) BASEURI_PATTERN).2
      = .error (.exception ((denyServer (loginReq "localhost" 8080 "joe" "pw")).reason
          ++ ": cannot login to zeppelin : " ++ loginUri "localhost" 8080 "joe" "pw")) :=
  ⟨(C3_login_request "localhost" 8080 "joe" "pw" denyServer rfl).1,
   (C3_login_request "localhost" 8080 "joe" "pw" denyServer rfl).2 rfl⟩
